import Mathlib

/-!
Verification of `Source/Scene/ClippingPlanesCollection.js` against its
natural-language specification.

The single source file under `src/` defines the `ClippingPlanesCollection`
constructor, the `combineClippingRegions` accessor pair, and the methods
`transformAndPackPlanes`, `clone` and `computeIntersectionWithBoundingVolume`.
Its collaborators (`../Core/Plane`, `../Core/Matrix4`, `../Core/Cartesian3`,
`../Core/Color`, `../Core/BoundingSphere`, `../Core/defaultValue`,
`../Core/Intersect`) are code of the repository that is not under `src/`;
those are modelled from the specification, each with a doc comment saying so.

Two embeddings are used:
* a value-level embedding (plane lists, matrices and colors as values) for the
  purely computational behaviour: classification, the cached predicate, and
  `transformAndPackPlanes` (whose module-level scratch variables and output
  container are threaded explicitly);
* a reference-level embedding (an explicit store of arrays, plane objects,
  matrices and colors, with JavaScript object identity as store indices) for
  the aliasing properties of the constructor and of `clone`.

Numbers are modelled as rationals: the source performs only field arithmetic,
and rationals keep every definition executable and decidable.
-/

set_option autoImplicit false

namespace Cesium

/-- Modelled from the spec: the `Intersect` enumeration of `../Core/Intersect`
(not under `src/`): the three classification verdicts Inside / Outside /
Intersecting used throughout the spec. -/
inductive Intersect where
  | OUTSIDE
  | INTERSECTING
  | INSIDE
  deriving DecidableEq, BEq, Repr

/-- Modelled from the spec: the 3-component vector of `../Core/Cartesian3`
(not under `src/`), used for plane normals and points. -/
structure Cartesian3 where
  x : ℚ
  y : ℚ
  z : ℚ
  deriving DecidableEq, Repr

/-- Modelled from the spec: dot product on `Cartesian3`. -/
def Cartesian3.dot (a b : Cartesian3) : ℚ :=
  a.x * b.x + a.y * b.y + a.z * b.z

/-- Modelled from the spec: the 4-component record of `../Core/Cartesian4`
(not under `src/`), the packed-plane record `(x, y, z, w)`. -/
structure Cartesian4 where
  x : ℚ
  y : ℚ
  z : ℚ
  w : ℚ
  deriving DecidableEq, Repr

/-- Modelled from the spec: the `Plane` primitive of `../Core/Plane` (not under
`src/`): a unit normal and a signed distance; points with
`dot(normal, point) + distance >= 0` are on the inside (non-clipped) side. -/
structure Plane where
  normal : Cartesian3
  distance : ℚ
  deriving DecidableEq, Repr

/-- Modelled from the spec: the 4x4 matrix primitive of `../Core/Matrix4` (not
under `src/`), supporting identity construction, multiplication and clone.
Field `mRC` is the entry in row `R`, column `C`. -/
structure Matrix4 where
  m00 : ℚ
  m01 : ℚ
  m02 : ℚ
  m03 : ℚ
  m10 : ℚ
  m11 : ℚ
  m12 : ℚ
  m13 : ℚ
  m20 : ℚ
  m21 : ℚ
  m22 : ℚ
  m23 : ℚ
  m30 : ℚ
  m31 : ℚ
  m32 : ℚ
  m33 : ℚ
  deriving DecidableEq, Repr

/-- Modelled from the spec: `Matrix4.IDENTITY`. -/
def Matrix4.IDENTITY : Matrix4 :=
  ⟨1, 0, 0, 0,
   0, 1, 0, 0,
   0, 0, 1, 0,
   0, 0, 0, 1⟩

/-- Modelled from the spec: `Matrix4.multiply(left, right)`, the usual matrix
product. -/
def Matrix4.multiply (a b : Matrix4) : Matrix4 :=
  ⟨a.m00 * b.m00 + a.m01 * b.m10 + a.m02 * b.m20 + a.m03 * b.m30,
   a.m00 * b.m01 + a.m01 * b.m11 + a.m02 * b.m21 + a.m03 * b.m31,
   a.m00 * b.m02 + a.m01 * b.m12 + a.m02 * b.m22 + a.m03 * b.m32,
   a.m00 * b.m03 + a.m01 * b.m13 + a.m02 * b.m23 + a.m03 * b.m33,
   a.m10 * b.m00 + a.m11 * b.m10 + a.m12 * b.m20 + a.m13 * b.m30,
   a.m10 * b.m01 + a.m11 * b.m11 + a.m12 * b.m21 + a.m13 * b.m31,
   a.m10 * b.m02 + a.m11 * b.m12 + a.m12 * b.m22 + a.m13 * b.m32,
   a.m10 * b.m03 + a.m11 * b.m13 + a.m12 * b.m23 + a.m13 * b.m33,
   a.m20 * b.m00 + a.m21 * b.m10 + a.m22 * b.m20 + a.m23 * b.m30,
   a.m20 * b.m01 + a.m21 * b.m11 + a.m22 * b.m21 + a.m23 * b.m31,
   a.m20 * b.m02 + a.m21 * b.m12 + a.m22 * b.m22 + a.m23 * b.m32,
   a.m20 * b.m03 + a.m21 * b.m13 + a.m22 * b.m23 + a.m23 * b.m33,
   a.m30 * b.m00 + a.m31 * b.m10 + a.m32 * b.m20 + a.m33 * b.m30,
   a.m30 * b.m01 + a.m31 * b.m11 + a.m32 * b.m21 + a.m33 * b.m31,
   a.m30 * b.m02 + a.m31 * b.m12 + a.m32 * b.m22 + a.m33 * b.m32,
   a.m30 * b.m03 + a.m31 * b.m13 + a.m32 * b.m23 + a.m33 * b.m33⟩

/-- Modelled from the spec: `Plane.transform(plane, transform)` of
`../Core/Plane` (not under `src/`). Per the spec, transforming a plane
transforms the normal by the inverse-transpose of the linear (upper 3x3) part
of the matrix and recomputes the distance so that the half-space is preserved:
a point of the plane (`-distance * normal`) is mapped by the full affine
transform and the new distance is read off against the new normal. The
inverse-transpose is computed with the cofactor matrix divided by the
determinant (for the identity and other orthonormal transforms this fixes the
normal, and the spec's renormalization of the unit normal is then the
identity). Behaviour on a singular linear part is unspecified by the spec
(rational division by zero yields zero here). -/
def Plane.transform (plane : Plane) (transform : Matrix4) : Plane :=
  let n := plane.normal
  let det :=
    transform.m00 * (transform.m11 * transform.m22 - transform.m12 * transform.m21)
      - transform.m01 * (transform.m10 * transform.m22 - transform.m12 * transform.m20)
      + transform.m02 * (transform.m10 * transform.m21 - transform.m11 * transform.m20)
  let c00 := transform.m11 * transform.m22 - transform.m12 * transform.m21
  let c01 := -(transform.m10 * transform.m22 - transform.m12 * transform.m20)
  let c02 := transform.m10 * transform.m21 - transform.m11 * transform.m20
  let c10 := -(transform.m01 * transform.m22 - transform.m02 * transform.m21)
  let c11 := transform.m00 * transform.m22 - transform.m02 * transform.m20
  let c12 := -(transform.m00 * transform.m21 - transform.m01 * transform.m20)
  let c20 := transform.m01 * transform.m12 - transform.m02 * transform.m11
  let c21 := -(transform.m00 * transform.m12 - transform.m02 * transform.m10)
  let c22 := transform.m00 * transform.m11 - transform.m01 * transform.m10
  let newNormal : Cartesian3 :=
    ⟨(c00 * n.x + c01 * n.y + c02 * n.z) / det,
     (c10 * n.x + c11 * n.y + c12 * n.z) / det,
     (c20 * n.x + c21 * n.y + c22 * n.z) / det⟩
  let pointOnPlane : Cartesian3 := ⟨-plane.distance * n.x, -plane.distance * n.y, -plane.distance * n.z⟩
  let transformedPoint : Cartesian3 :=
    ⟨transform.m00 * pointOnPlane.x + transform.m01 * pointOnPlane.y + transform.m02 * pointOnPlane.z + transform.m03,
     transform.m10 * pointOnPlane.x + transform.m11 * pointOnPlane.y + transform.m12 * pointOnPlane.z + transform.m13,
     transform.m20 * pointOnPlane.x + transform.m21 * pointOnPlane.y + transform.m22 * pointOnPlane.z + transform.m23⟩
  ⟨newNormal, -(Cartesian3.dot newNormal transformedPoint)⟩

/-- Modelled from the spec: the RGBA color value of `../Core/Color` (not under
`src/`): opaque styling data with a clone operation; no logic depends on it. -/
structure Color where
  red : ℚ
  green : ℚ
  blue : ℚ
  alpha : ℚ
  deriving DecidableEq, Repr

/-- Modelled from the spec: `Color.WHITE`. -/
def Color.WHITE : Color := ⟨1, 1, 1, 1⟩

/-- Modelled from the spec: the BoundingVolume capability, an object exposing
`classifyAgainstPlane(plane)` returning Inside / Outside / Intersecting
relative to that plane's half-space (`intersectPlane` in the source). -/
structure BoundingVolume where
  intersectPlane : Plane → Intersect

/-- Modelled from the spec: a spherical bounding volume (the source's
`../Core/BoundingSphere` collaborator, not under `src/`), classified against a
plane by the spec's half-space semantics: with `sd = dot(normal, center) +
distance`, the sphere is entirely outside the half-space when `sd < -radius`,
straddles the plane when `-radius <= sd < radius`, and is entirely inside the
half-space otherwise. -/
def sphereVolume (center : Cartesian3) (radius : ℚ) : BoundingVolume :=
  ⟨fun plane =>
    let distanceToPlane := Cartesian3.dot plane.normal center + plane.distance
    if distanceToPlane < -radius then Intersect.OUTSIDE
    else if distanceToPlane < radius then Intersect.INTERSECTING
    else Intersect.INSIDE⟩

/-- Modelled from the spec: `defaultValue(a, b)` of `../Core/defaultValue`
(not under `src/`): the first argument when it is defined, the second
otherwise (`undefined` is `none`). -/
def defaultValue {α : Type} (a : Option α) (b : α) : α :=
  match a with
  | some v => v
  | none => b

/-- JavaScript truthiness of a possibly-undefined boolean, used where the
source branches directly on `this.combineClippingRegions`. -/
def truthy : Option Bool → Bool
  | none => false
  | some b => b

/-- `getTestIntersectionFunction(combineClippingRegions)` (source lines
110-120): the cached classification predicate; in intersection mode it fires
on a per-plane verdict of `INSIDE`, in union mode on `OUTSIDE`. -/
def getTestIntersectionFunction (combineClippingRegions : Bool) : Intersect → Bool :=
  if combineClippingRegions then
    fun value => decide (value = Intersect.INSIDE)
  else
    fun value => decide (value = Intersect.OUTSIDE)

/-- Value-level embedding of the `ClippingPlanesCollection` state (source
lines 41-108). `_combineClippingRegions` and `_testIntersection` are `Option`s
because the source initializes both to `undefined` before the constructor runs
the `combineClippingRegions` setter. -/
structure ClippingPlanesCollection where
  planes : List Plane
  enabled : Bool
  modelMatrix : Matrix4
  edgeColor : Color
  edgeWidth : ℚ
  _combineClippingRegions : Option Bool
  _testIntersection : Option (Intersect → Bool)

/-- The `combineClippingRegions` getter (source lines 98-100). -/
def ClippingPlanesCollection.combineClippingRegions (c : ClippingPlanesCollection) : Option Bool :=
  c._combineClippingRegions

/-- The `combineClippingRegions` setter (source lines 101-106): when the new
value differs from the stored one (`!==`), store it and re-derive the cached
predicate from the new value; otherwise do nothing. -/
def ClippingPlanesCollection.setCombineClippingRegions
    (c : ClippingPlanesCollection) (value : Option Bool) : ClippingPlanesCollection :=
  if c._combineClippingRegions ≠ value then
    { c with
      _combineClippingRegions := value,
      _testIntersection := some (getTestIntersectionFunction (truthy value)) }
  else
    c

/-- The recognized constructor options (source lines 33-39); `none` is an
unset option. -/
structure ClippingPlanesCollectionOptions where
  planes : Option (List Plane)
  enabled : Option Bool
  modelMatrix : Option Matrix4
  combineClippingRegions : Option Bool
  edgeColor : Option Color
  edgeWidth : Option ℚ

/-- The options object with every option unset. -/
def ClippingPlanesCollectionOptions.empty : ClippingPlanesCollectionOptions :=
  ⟨none, none, none, none, none, none⟩

/-- Value-level embedding of the `ClippingPlanesCollection(options)`
constructor (source lines 41-86): fields default via `defaultValue`,
`_testIntersection` starts `undefined`, and the final assignment to
`combineClippingRegions` runs the property setter. -/
def ClippingPlanesCollection.construct
    (options : Option ClippingPlanesCollectionOptions) : ClippingPlanesCollection :=
  let options := defaultValue options ClippingPlanesCollectionOptions.empty
  let c : ClippingPlanesCollection :=
    { planes := defaultValue options.planes []
      enabled := defaultValue options.enabled true
      modelMatrix := defaultValue options.modelMatrix Matrix4.IDENTITY
      edgeColor := defaultValue options.edgeColor Color.WHITE
      edgeWidth := defaultValue options.edgeWidth 0
      _combineClippingRegions := none
      _testIntersection := none }
  c.setCombineClippingRegions (some (defaultValue options.combineClippingRegions true))

/-- The effective transform of `computeIntersectionWithBoundingVolume` (source
lines 189-192): `modelMatrix * parentTransform` when a parent transform is
supplied, `modelMatrix` otherwise. -/
def ClippingPlanesCollection.effectiveTransform
    (c : ClippingPlanesCollection) (parentTransform : Option Matrix4) : Matrix4 :=
  match parentTransform with
  | none => c.modelMatrix
  | some parent => Matrix4.multiply c.modelMatrix parent

/-- The scan loop of `computeIntersectionWithBoundingVolume` (source lines
202-215), with the per-plane verdict abstracted as `verdict` (the bounding
volume classified against the transformed plane). A verdict of `INTERSECTING`
overwrites the accumulator and the scan continues; otherwise the cached
predicate is consulted (`none` models calling an `undefined` predicate, a
thrown `TypeError`, hence result `none`) and a firing predicate returns the
verdict at once. -/
def classifyLoop (test : Option (Intersect → Bool)) (verdict : Plane → Intersect) :
    List Plane → Intersect → Option Intersect
  | [], intersection => some intersection
  | plane :: rest, intersection =>
    let value := verdict plane
    if value = Intersect.INTERSECTING then
      classifyLoop test verdict rest value
    else
      match test with
      | none => none
      | some f => if f value then some value else classifyLoop test verdict rest intersection

/-- `computeIntersectionWithBoundingVolume(boundingVolume, parentTransform)`
(source lines 185-216): compose the effective transform, initialize the
accumulator to `OUTSIDE` exactly when `combineClippingRegions` is truthy and
there is at least one plane (`INSIDE` otherwise), then scan the planes,
classifying the volume against each plane transformed by the effective
transform. `none` models a thrown `TypeError` (undefined cached predicate). -/
def ClippingPlanesCollection.computeIntersectionWithBoundingVolume
    (c : ClippingPlanesCollection) (boundingVolume : BoundingVolume)
    (parentTransform : Option Matrix4) : Option Intersect :=
  let transform := c.effectiveTransform parentTransform
  let intersection :=
    if truthy c.combineClippingRegions && decide (0 < c.planes.length) then
      Intersect.OUTSIDE
    else
      Intersect.INSIDE
  classifyLoop c._testIntersection
    (fun plane => boundingVolume.intersectPlane (Plane.transform plane transform))
    c.planes intersection

/-- The classification algorithm exactly as the spec's claim states it
(refinement reference, written from the spec's words, to be compared with the
source embedding): the loop keeps an accumulated result; an `INTERSECTING`
verdict records `INTERSECTING` and continues; an `INSIDE` verdict returns
`INSIDE` immediately in intersection mode; an `OUTSIDE` verdict returns
`OUTSIDE` immediately in union mode; other verdicts leave the accumulator
untouched; a completed loop returns the accumulator. -/
def classifySpecLoop (combineClippingRegions : Bool) (verdict : Plane → Intersect) :
    List Plane → Intersect → Intersect
  | [], result => result
  | plane :: rest, result =>
    match verdict plane with
    | Intersect.INTERSECTING => classifySpecLoop combineClippingRegions verdict rest Intersect.INTERSECTING
    | Intersect.INSIDE =>
      if combineClippingRegions then Intersect.INSIDE
      else classifySpecLoop combineClippingRegions verdict rest result
    | Intersect.OUTSIDE =>
      if combineClippingRegions then classifySpecLoop combineClippingRegions verdict rest result
      else Intersect.OUTSIDE

/-- The full classification algorithm as the spec's claim states it
(refinement reference, written from the spec's words): the result is
initialized to `OUTSIDE` when `combineClippingRegions` is true and the plane
sequence is non-empty, else `INSIDE`, and the scan of `classifySpecLoop` is
run over the planes. -/
def classifySpec (combineClippingRegions : Bool) (verdict : Plane → Intersect)
    (planes : List Plane) : Intersect :=
  classifySpecLoop combineClippingRegions verdict planes
    (if combineClippingRegions && decide (0 < planes.length) then Intersect.OUTSIDE
     else Intersect.INSIDE)

/-- A plane with normal `(1, 0, 0)` and distance `0`. -/
def unitXPlane : Plane := ⟨⟨1, 0, 0⟩, 0⟩

/-- Seven planes: one more than the documented maximum of six. -/
def sevenPlanesOptions : ClippingPlanesCollectionOptions :=
  ⟨some [unitXPlane, unitXPlane, unitXPlane, unitXPlane, unitXPlane, unitXPlane, unitXPlane],
   none, none, none, none, none⟩

/-- The lower slab plane of the spec's scenario: normal `(1, 0, 0)`,
distance `0`. -/
def slabPlaneLower : Plane := ⟨⟨1, 0, 0⟩, 0⟩

/-- The upper slab plane of the spec's scenario: normal `(-1, 0, 0)`,
distance `5`. -/
def slabPlaneUpper : Plane := ⟨⟨-1, 0, 0⟩, 5⟩

/-- The spec scenario's collection: the two slab planes, intersection mode. -/
def slabCollection : ClippingPlanesCollection :=
  ClippingPlanesCollection.construct
    (some ⟨some [slabPlaneLower, slabPlaneUpper], none, none, some true, none, none⟩)

/-- A unit sphere about `(2, 0, 0)`: fully inside the slab `[0, 5]` on x. -/
def volumeInsideSlab : BoundingVolume := sphereVolume ⟨2, 0, 0⟩ 1

/-- A unit sphere about `(-3, 0, 0)`: fully outside the slab `[0, 5]` on x. -/
def volumeOutsideSlab : BoundingVolume := sphereVolume ⟨-3, 0, 0⟩ 1

/-- A unit sphere about the origin: straddles exactly the lower slab
boundary `x = 0`. -/
def volumeStraddlingLower : BoundingVolume := sphereVolume ⟨0, 0, 0⟩ 1

/-- The module-level scratch variables `scratchPlane` and `scratchMatrix`
(source lines 122-123), threaded explicitly so that the absence of state
leakage between calls is provable rather than assumed. -/
structure PackScratch where
  scratchPlane : Plane
  scratchMatrix : Matrix4

/-- The loop of `transformAndPackPlanes` (source lines 141-149). The output
container is a list of `Option Cartesian4` because a JavaScript array slot
may hold `undefined`: `new Array(length)` has only undefined slots, and
`array[i]` past the end is undefined too. Each iteration overwrites the
scratch plane with the transformed plane, then copies its normal into the
packed record (`Cartesian3.clone` mutates the slot's object in place; with an
undefined slot it allocates a discarded fresh object instead) and assigns the
distance to `.w`. The returned flag is `false` when the `.w` assignment hits
an undefined slot, modelling the thrown `TypeError`; the container state
reached before the throw is kept, since the caller's array object retains the
mutations already made. -/
def packLoop (transform : Matrix4) (scratchPlane : Plane) :
    List Plane → Nat → List (Option Cartesian4) →
      Plane × List (Option Cartesian4) × Bool
  | [], _, array => (scratchPlane, array, true)
  | plane :: rest, i, array =>
    let scratchPlane := Plane.transform plane transform
    match array.get? i with
    | some (some packedPlane) =>
      let packedPlane :=
        { packedPlane with
          x := scratchPlane.normal.x
          y := scratchPlane.normal.y
          z := scratchPlane.normal.z }
      let packedPlane := { packedPlane with w := scratchPlane.distance }
      packLoop transform scratchPlane rest (i + 1) (array.set i (some packedPlane))
    | _ => (scratchPlane, array, false)

/-- `transformAndPackPlanes(viewMatrix, array)` (source lines 131-152): when
no container is supplied, allocate `new Array(length)` (all slots undefined);
write `viewMatrix * modelMatrix` into the scratch matrix; run the packing
loop. The result carries the final scratch state, the final container state,
and `true` exactly when the call completed without throwing (in which case
the source returns the container). -/
def ClippingPlanesCollection.transformAndPackPlanes (c : ClippingPlanesCollection)
    (scratch : PackScratch) (viewMatrix : Matrix4)
    (array : Option (List (Option Cartesian4))) :
    PackScratch × List (Option Cartesian4) × Bool :=
  let length := c.planes.length
  let array :=
    match array with
    | none => List.replicate length none
    | some a => a
  let transform := Matrix4.multiply viewMatrix c.modelMatrix
  let r := packLoop transform scratch.scratchPlane c.planes 0 array
  (⟨r.1, transform⟩, r.2)

/-- A collection constructed with the single plane `(1, 0, 0)` distance 0. -/
def onePlaneCollection : ClippingPlanesCollection :=
  ClippingPlanesCollection.construct (some ⟨some [unitXPlane], none, none, none, none, none⟩)

/-- Reference-level store: the JavaScript heap objects the source manipulates,
with object identity made explicit as an index into the store. Plane arrays
hold references to plane objects (a JavaScript array of `Plane`s); matrices
and colors are mutable objects referenced by collections. -/
structure Store where
  planeObjects : List Plane
  arrays : List (List Nat)
  matrices : List Matrix4
  colors : List Color

/-- Dereference a plane object (out-of-range references yield a dummy). -/
def Store.lookupPlane (s : Store) (r : Nat) : Plane :=
  s.planeObjects.getD r ⟨⟨0, 0, 0⟩, 0⟩

/-- Dereference a plane array. -/
def Store.lookupArray (s : Store) (r : Nat) : List Nat :=
  s.arrays.getD r []

/-- Dereference a matrix object. -/
def Store.lookupMatrix (s : Store) (r : Nat) : Matrix4 :=
  s.matrices.getD r Matrix4.IDENTITY

/-- Dereference a color object. -/
def Store.lookupColor (s : Store) (r : Nat) : Color :=
  s.colors.getD r Color.WHITE

/-- Allocate a fresh array object (a JavaScript array literal or
`Array.from`), returning the new store and the fresh reference. -/
def Store.allocArray (s : Store) (contents : List Nat) : Store × Nat :=
  ({ s with arrays := s.arrays ++ [contents] }, s.arrays.length)

/-- Allocate a fresh matrix object (`Matrix4.clone` with no result). -/
def Store.allocMatrix (s : Store) (m : Matrix4) : Store × Nat :=
  ({ s with matrices := s.matrices ++ [m] }, s.matrices.length)

/-- Allocate a fresh color object (`Color.clone` with no result). -/
def Store.allocColor (s : Store) (col : Color) : Store × Nat :=
  ({ s with colors := s.colors ++ [col] }, s.colors.length)

/-- Mutate a plane object in place (writing its `normal` / `distance`). -/
def Store.setPlane (s : Store) (r : Nat) (p : Plane) : Store :=
  { s with planeObjects := s.planeObjects.set r p }

/-- Mutate an array object in place (structural mutation of the array). -/
def Store.setArray (s : Store) (r : Nat) (contents : List Nat) : Store :=
  { s with arrays := s.arrays.set r contents }

/-- Mutate a matrix object in place (`Matrix4.clone` into an existing
object, or any external write). -/
def Store.setMatrix (s : Store) (r : Nat) (m : Matrix4) : Store :=
  { s with matrices := s.matrices.set r m }

/-- Mutate a color object in place (`Color.clone` into an existing object). -/
def Store.setColor (s : Store) (r : Nat) (col : Color) : Store :=
  { s with colors := s.colors.set r col }

/-- Reference-level `ClippingPlanesCollection` state: `planes`, `modelMatrix`
and `edgeColor` are references into the store (source lines 50, 66, 74);
`enabled`, `edgeWidth` and the two accessor-backed fields are plain values. -/
structure RefClippingPlanesCollection where
  planes : Nat
  enabled : Bool
  modelMatrix : Nat
  edgeColor : Nat
  edgeWidth : ℚ
  _combineClippingRegions : Option Bool
  _testIntersection : Option (Intersect → Bool)

/-- The `combineClippingRegions` setter (source lines 101-106) on the
reference-level state; same logic as the value-level embedding. -/
def RefClippingPlanesCollection.setCombineClippingRegions
    (c : RefClippingPlanesCollection) (value : Option Bool) : RefClippingPlanesCollection :=
  if c._combineClippingRegions ≠ value then
    { c with
      _combineClippingRegions := value,
      _testIntersection := some (getTestIntersectionFunction (truthy value)) }
  else
    c

/-- Reference-level constructor options: provided planes array, model matrix
and edge color are references to existing objects. -/
structure RefOptions where
  planes : Option Nat
  enabled : Option Bool
  modelMatrix : Option Nat
  combineClippingRegions : Option Bool
  edgeColor : Option Nat
  edgeWidth : Option ℚ

/-- The reference-level options object with every option unset. -/
def RefOptions.empty : RefOptions := ⟨none, none, none, none, none, none⟩

/-- Reference-level embedding of the `ClippingPlanesCollection(options)`
constructor (source lines 41-86). `defaultValue(options.x, fresh)` evaluates
its second argument eagerly in JavaScript, so the default empty array,
identity matrix (`Matrix4.clone(Matrix4.IDENTITY)`) and white color
(`Color.clone(Color.WHITE)`) are allocated unconditionally; a provided option
is stored as the very reference that was passed in, with no copy. -/
def refConstruct (store : Store) (options : Option RefOptions) :
    Store × RefClippingPlanesCollection :=
  let options := defaultValue options RefOptions.empty
  let alloc1 := store.allocArray []
  let planesRef := defaultValue options.planes alloc1.2
  let alloc2 := alloc1.1.allocMatrix Matrix4.IDENTITY
  let modelMatrixRef := defaultValue options.modelMatrix alloc2.2
  let alloc3 := alloc2.1.allocColor Color.WHITE
  let edgeColorRef := defaultValue options.edgeColor alloc3.2
  let c : RefClippingPlanesCollection :=
    { planes := planesRef
      enabled := defaultValue options.enabled true
      modelMatrix := modelMatrixRef
      edgeColor := edgeColorRef
      edgeWidth := defaultValue options.edgeWidth 0
      _combineClippingRegions := none
      _testIntersection := none }
  (alloc3.1, c.setCombineClippingRegions (some (defaultValue options.combineClippingRegions true)))

/-- Reference-level embedding of `clone(result)` (source lines 160-173): a
missing target is a fresh `new ClippingPlanesCollection()`; `Array.from`
allocates a new array object holding the same plane references;
`Matrix4.clone` and `Color.clone` write through the target's existing matrix
and color objects; `combineClippingRegions` is assigned through the property
setter; `enabled` and `edgeWidth` are plain copies. -/
def refClone (store : Store) (c : RefClippingPlanesCollection)
    (result : Option RefClippingPlanesCollection) : Store × RefClippingPlanesCollection :=
  let init :=
    match result with
    | none => refConstruct store none
    | some r => (store, r)
  let store1 := init.1
  let alloc := store1.allocArray (store1.lookupArray c.planes)
  let result2 := { init.2 with planes := alloc.2, enabled := c.enabled }
  let store3 := alloc.1.setMatrix result2.modelMatrix (alloc.1.lookupMatrix c.modelMatrix)
  let result3 := result2.setCombineClippingRegions c._combineClippingRegions
  let store4 := store3.setColor result3.edgeColor (store3.lookupColor c.edgeColor)
  let result4 := { result3 with edgeWidth := c.edgeWidth }
  (store4, result4)

/-- The planes a reference-level collection observes: its array dereferenced,
each element dereferenced as a plane object. -/
def observePlanes (store : Store) (c : RefClippingPlanesCollection) : List Plane :=
  (store.lookupArray c.planes).map store.lookupPlane

/-- The model matrix a reference-level collection observes. -/
def observeModelMatrix (store : Store) (c : RefClippingPlanesCollection) : Matrix4 :=
  store.lookupMatrix c.modelMatrix

/-- The edge color a reference-level collection observes. -/
def observeEdgeColor (store : Store) (c : RefClippingPlanesCollection) : Color :=
  store.lookupColor c.edgeColor

/-- The concrete heap of the aliasing scenarios: one plane object, one plane
array holding it, one identity matrix, one white color. -/
def cexStore : Store := ⟨[unitXPlane], [[0]], [Matrix4.IDENTITY], [Color.WHITE]⟩

/-- Options passing the existing array object 0 as `planes` and the existing
matrix object 0 as `modelMatrix`. -/
def cexOptions : RefOptions := ⟨some 0, none, some 0, none, none, none⟩

/-- A matrix differing from the identity (translation by 7 on x). -/
def cexMatrix : Matrix4 :=
  ⟨1, 0, 0, 7,
   0, 1, 0, 0,
   0, 0, 1, 0,
   0, 0, 0, 1⟩

/-- A wellformed reference-level collection owning array 0, matrix 0 and
color 0 of `cexStore`. -/
def cexCollection : RefClippingPlanesCollection :=
  ⟨0, true, 0, 0, 0, some true, some (getTestIntersectionFunction true)⟩

/-- Options passing the existing matrix object 0 as `modelMatrix` only: a
target collection sharing the original's matrix object. -/
def c8TargetOptions : RefOptions := ⟨none, none, some 0, none, none, none⟩

/-- The original of the C8 scenario, built on the concrete heap. -/
def c8Orig : Store × RefClippingPlanesCollection := refConstruct cexStore (some cexOptions)

/-- A clone target constructed with the original's matrix object. -/
def c8Target : Store × RefClippingPlanesCollection := refConstruct c8Orig.1 (some c8TargetOptions)

/-- The original cloned into the sharing target. -/
def c8Clone : Store × RefClippingPlanesCollection := refClone c8Target.1 c8Orig.2 (some c8Target.2)

theorem classifyLoop_eq_specLoop (b : Bool) (verdict : Plane → Intersect) :
    ∀ (planes : List Plane) (acc : Intersect),
      classifyLoop (some (getTestIntersectionFunction b)) verdict planes acc =
        some (classifySpecLoop b verdict planes acc) := by
  intro planes
  induction planes with
  | nil => intro acc; rfl
  | cons p rest ih =>
    intro acc
    cases b <;>
      simp only [getTestIntersectionFunction, Bool.false_eq_true, if_true, if_false,
        ite_true, ite_false] at ih ⊢ <;>
      cases hv : verdict p <;>
      simp [classifyLoop, classifySpecLoop, hv, ih]

theorem construct_combine_consistent (options : Option ClippingPlanesCollectionOptions) :
    ∃ b : Bool,
      (ClippingPlanesCollection.construct options)._combineClippingRegions = some b ∧
      (ClippingPlanesCollection.construct options)._testIntersection =
        some (getTestIntersectionFunction b) := by
  refine ⟨defaultValue (defaultValue options ClippingPlanesCollectionOptions.empty).combineClippingRegions true,
    ?_, ?_⟩ <;>
    simp [ClippingPlanesCollection.construct, ClippingPlanesCollection.setCombineClippingRegions,
      truthy]

theorem classifyLoop_isSome (f : Intersect → Bool) (verdict : Plane → Intersect) :
    ∀ (planes : List Plane) (acc : Intersect),
      classifyLoop (some f) verdict planes acc ≠ none := by
  intro planes
  induction planes with
  | nil => intro acc; simp [classifyLoop]
  | cons p rest ih =>
    intro acc
    simp only [classifyLoop]
    split
    · exact ih _
    · split
      · simp
      · exact ih _

/-- C1: for every collection whose cached predicate is consistent with its
mode flag (the invariant every constructed collection satisfies), every
bounding volume and every optional parent transform,
`computeIntersectionWithBoundingVolume` returns exactly the result of the
claimed sequential algorithm `classifySpec`: the accumulator starts at
`OUTSIDE` for a non-empty plane sequence in intersection mode and at `INSIDE`
in union mode; each plane is transformed by the effective transform and the
volume is classified against it; an `INTERSECTING` verdict sets the
accumulator to `INTERSECTING` and the scan continues; an `INSIDE` verdict
returns `INSIDE` immediately in intersection mode, an `OUTSIDE` verdict
returns `OUTSIDE` immediately in union mode; when the loop completes the
accumulator is returned. -/
theorem computeIntersection_follows_spec_algorithm
    (c : ClippingPlanesCollection) (b : Bool) (bv : BoundingVolume)
    (parentTransform : Option Matrix4)
    (hcomb : c._combineClippingRegions = some b)
    (htest : c._testIntersection = some (getTestIntersectionFunction b)) :
    c.computeIntersectionWithBoundingVolume bv parentTransform =
      some (classifySpec b
        (fun plane =>
          bv.intersectPlane (Plane.transform plane (c.effectiveTransform parentTransform)))
        c.planes) := by
  unfold ClippingPlanesCollection.computeIntersectionWithBoundingVolume classifySpec
  simp only [ClippingPlanesCollection.combineClippingRegions, hcomb, htest, truthy]
  exact classifyLoop_eq_specLoop b _ c.planes _

/-- Witness for C1: the default-constructed collection is consistent, and the
theorem applies to it at a concrete bounding volume. -/

theorem computeIntersection_follows_spec_algorithm_witness :
    (ClippingPlanesCollection.construct none)._combineClippingRegions = some true ∧
    (ClippingPlanesCollection.construct none).computeIntersectionWithBoundingVolume
        ⟨fun _ => Intersect.INSIDE⟩ none =
      some (classifySpec true
        (fun plane =>
          BoundingVolume.intersectPlane ⟨fun _ => Intersect.INSIDE⟩
            (Plane.transform plane
              ((ClippingPlanesCollection.construct none).effectiveTransform none)))
        (ClippingPlanesCollection.construct none).planes) :=
  ⟨rfl, computeIntersection_follows_spec_algorithm _ true _ none rfl rfl⟩

/-- C3: a collection whose plane sequence is empty classifies every bounding
volume as `INSIDE`, whatever the values of every other field (in particular
`combineClippingRegions`, even undefined), the model matrix and the optional
parent transform. -/
theorem classify_empty_planes_inside (enabled : Bool) (modelMatrix : Matrix4)
    (edgeColor : Color) (edgeWidth : ℚ) (combine : Option Bool)
    (cachedTest : Option (Intersect → Bool)) (boundingVolume : BoundingVolume)
    (parentTransform : Option Matrix4) :
    ClippingPlanesCollection.computeIntersectionWithBoundingVolume
      ⟨[], enabled, modelMatrix, edgeColor, edgeWidth, combine, cachedTest⟩
      boundingVolume parentTransform = some Intersect.INSIDE := by
  simp [ClippingPlanesCollection.computeIntersectionWithBoundingVolume, classifyLoop]

/-- C4: the cached classification predicate is never stale. After
construction the stored flag is defined and the predicate is exactly the one
derived from it; a write of `v` through the setter on any consistent state
leaves the flag at `v` with the predicate derived from `v` (so the next
classification uses the new mode); a write of the currently stored value
performs no recomputation at all (the state is returned unchanged); and
reading the property returns the last-set value. -/
theorem combineClippingRegions_never_stale :
    (∀ options : Option ClippingPlanesCollectionOptions, ∃ b : Bool,
        (ClippingPlanesCollection.construct options)._combineClippingRegions = some b ∧
        (ClippingPlanesCollection.construct options)._testIntersection =
          some (getTestIntersectionFunction b)) ∧
    (∀ (c : ClippingPlanesCollection) (v : Bool),
        (∃ b : Bool, c._combineClippingRegions = some b ∧
            c._testIntersection = some (getTestIntersectionFunction b)) →
        (c.setCombineClippingRegions (some v))._combineClippingRegions = some v ∧
        (c.setCombineClippingRegions (some v))._testIntersection =
          some (getTestIntersectionFunction v)) ∧
    (∀ (c : ClippingPlanesCollection) (v : Bool),
        c._combineClippingRegions = some v → c.setCombineClippingRegions (some v) = c) ∧
    (∀ (c : ClippingPlanesCollection) (v : Bool),
        (c.setCombineClippingRegions (some v)).combineClippingRegions = some v) := by
  refine ⟨construct_combine_consistent, ?_, ?_, ?_⟩
  · intro c v hwf
    obtain ⟨b, hb, ht⟩ := hwf
    by_cases h : c._combineClippingRegions = some v
    · have hbv : b = v := by rw [h] at hb; exact (Option.some_inj.mp hb).symm
      simp [ClippingPlanesCollection.setCombineClippingRegions, h, hb, ht, hbv, truthy]
    · simp [ClippingPlanesCollection.setCombineClippingRegions, h, truthy]
  · intro c v h
    simp [ClippingPlanesCollection.setCombineClippingRegions, h]
  · intro c v
    by_cases h : c._combineClippingRegions = some v <;>
      simp [ClippingPlanesCollection.setCombineClippingRegions,
        ClippingPlanesCollection.combineClippingRegions, h]

/-- Witness for C4: applied to the default-constructed collection, setting
`false` re-derives the union-mode predicate, and re-setting `true` is the
identity. -/
theorem combineClippingRegions_never_stale_witness :
    ((ClippingPlanesCollection.construct none).setCombineClippingRegions
        (some false))._testIntersection = some (getTestIntersectionFunction false) ∧
    (ClippingPlanesCollection.construct none).setCombineClippingRegions (some true) =
      ClippingPlanesCollection.construct none :=
  ⟨(combineClippingRegions_never_stale.2.1 (ClippingPlanesCollection.construct none) false
      ⟨true, rfl, rfl⟩).2,
   combineClippingRegions_never_stale.2.2.1 (ClippingPlanesCollection.construct none) true rfl⟩

theorem construct_sevenPlanes_fields :
    ClippingPlanesCollection.construct (some sevenPlanesOptions) =
      ⟨[unitXPlane, unitXPlane, unitXPlane, unitXPlane, unitXPlane, unitXPlane, unitXPlane],
       true, Matrix4.IDENTITY, Color.WHITE, 0, some true,
       some (getTestIntersectionFunction true)⟩ := rfl

/-- C9 counterexample: the implementation performs no validation. A
collection constructed with seven planes (more than the documented maximum of
six) keeps all seven and classifies a bounding volume without any assertion
or error signal, silently producing a classification — the claim says such
input fails fast. -/
theorem seven_planes_classified_silently :
    (ClippingPlanesCollection.construct (some sevenPlanesOptions)).planes.length = 7 ∧
    (ClippingPlanesCollection.construct
        (some sevenPlanesOptions)).computeIntersectionWithBoundingVolume
        (sphereVolume ⟨2, 0, 0⟩ 1) none = some Intersect.INSIDE := by
  constructor
  · rfl
  · rw [construct_sevenPlanes_fields]
    norm_num [unitXPlane,
      ClippingPlanesCollection.computeIntersectionWithBoundingVolume,
      ClippingPlanesCollection.combineClippingRegions,
      ClippingPlanesCollection.effectiveTransform,
      truthy, classifyLoop, Plane.transform, sphereVolume, Cartesian3.dot,
      Matrix4.IDENTITY, getTestIntersectionFunction]

/-- C9 amended: the implementation performs no input validation at all: a
constructed collection classifies every bounding volume without signalling an
error, whatever the number of planes (in particular more than six) and
whatever the transforms; missing or malformed collaborator arguments are not
checked either. -/
theorem classify_never_signals_error (options : Option ClippingPlanesCollectionOptions)
    (boundingVolume : BoundingVolume) (parentTransform : Option Matrix4) :
    (ClippingPlanesCollection.construct options).computeIntersectionWithBoundingVolume
      boundingVolume parentTransform ≠ none := by
  obtain ⟨b, hb, ht⟩ := construct_combine_consistent options
  unfold ClippingPlanesCollection.computeIntersectionWithBoundingVolume
  rw [ht]
  exact classifyLoop_isSome _ _ _ _

theorem slabCollection_fields :
    slabCollection =
      ⟨[slabPlaneLower, slabPlaneUpper], true, Matrix4.IDENTITY, Color.WHITE, 0,
       some true, some (getTestIntersectionFunction true)⟩ := rfl

/-- C2 counterexample: in the spec's slab scenario the volume fully outside
the slab has per-plane verdicts `OUTSIDE` (lower plane) and `INSIDE` (upper
plane), and classification returns `INSIDE` — not `OUTSIDE` as the claim
states — because the upper plane's `INSIDE` verdict fires the
intersection-mode predicate and returns immediately. -/
theorem slab_outside_volume_not_outside :
    volumeOutsideSlab.intersectPlane slabPlaneLower = Intersect.OUTSIDE ∧
    volumeOutsideSlab.intersectPlane slabPlaneUpper = Intersect.INSIDE ∧
    slabCollection.computeIntersectionWithBoundingVolume volumeOutsideSlab none =
      some Intersect.INSIDE ∧
    (Intersect.INSIDE : Intersect) ≠ Intersect.OUTSIDE := by
  refine ⟨?_, ?_, ?_, by decide⟩ <;>
    norm_num [slabCollection_fields, volumeOutsideSlab, slabPlaneLower, slabPlaneUpper,
      ClippingPlanesCollection.computeIntersectionWithBoundingVolume,
      ClippingPlanesCollection.combineClippingRegions,
      ClippingPlanesCollection.effectiveTransform,
      truthy, classifyLoop, Plane.transform, sphereVolume, Cartesian3.dot,
      Matrix4.IDENTITY, getTestIntersectionFunction]

/-- C2 amended: in the slab scenario with `combineClippingRegions = true` a
volume fully inside `[0, 5]` on x classifies `INSIDE` as claimed; but a
volume fully outside the slab (per-plane verdicts `OUTSIDE` / `INSIDE`) and a
volume straddling exactly one boundary (per-plane verdicts `INTERSECTING` /
`INSIDE`) also classify `INSIDE`, because the plane on whose inner side the
volume lies reports `INSIDE`, which in intersection mode forces an immediate
`INSIDE` return. -/
theorem slab_intersection_mode_results :
    slabCollection.computeIntersectionWithBoundingVolume volumeInsideSlab none =
      some Intersect.INSIDE ∧
    slabCollection.computeIntersectionWithBoundingVolume volumeOutsideSlab none =
      some Intersect.INSIDE ∧
    slabCollection.computeIntersectionWithBoundingVolume volumeStraddlingLower none =
      some Intersect.INSIDE ∧
    volumeStraddlingLower.intersectPlane slabPlaneLower = Intersect.INTERSECTING ∧
    volumeStraddlingLower.intersectPlane slabPlaneUpper = Intersect.INSIDE := by
  refine ⟨?_, ?_, ?_, ?_, ?_⟩ <;>
    norm_num [slabCollection_fields, volumeInsideSlab, volumeOutsideSlab, volumeStraddlingLower,
      slabPlaneLower, slabPlaneUpper,
      ClippingPlanesCollection.computeIntersectionWithBoundingVolume,
      ClippingPlanesCollection.combineClippingRegions,
      ClippingPlanesCollection.effectiveTransform,
      truthy, classifyLoop, Plane.transform, sphereVolume, Cartesian3.dot,
      Matrix4.IDENTITY, getTestIntersectionFunction]

/-- C6: evaluation of the code at the failing input. For a collection with
one plane and the identity view matrix, calling `transformAndPackPlanes`
without an output container throws (`false` completion flag): the freshly
allocated `new Array(length)` has only undefined slots, the loop's
`Cartesian3.clone` allocates a discarded object instead of filling the slot,
and `packedPlane.w = ...` on the undefined slot is a `TypeError`. The
function's own doc comment declares the `array` parameter optional and
promises the packed array as the result, so the claim (and spec) state the
documented intent and the code is the slip. -/
theorem transformAndPack_without_array_throws :
    (onePlaneCollection.transformAndPackPlanes ⟨unitXPlane, Matrix4.IDENTITY⟩
        Matrix4.IDENTITY none).2.2 = false := rfl

theorem list_get?_set_self {α : Type} (l : List α) : ∀ (i : Nat) (v : α),
    i < l.length → (l.set i v).get? i = some v := by
  induction l with
  | nil => intro i v h; exact absurd h (Nat.not_lt_zero i)
  | cons a l ih =>
    intro i v h
    cases i with
    | zero => rfl
    | succ i => exact ih i v (Nat.lt_of_succ_lt_succ h)

theorem list_get?_set_ne {α : Type} (l : List α) : ∀ (i j : Nat) (v : α),
    i ≠ j → (l.set i v).get? j = l.get? j := by
  induction l with
  | nil => intro i j v _; rfl
  | cons a l ih =>
    intro i j v h
    cases i with
    | zero =>
      cases j with
      | zero => exact absurd rfl h
      | succ j => rfl
    | succ i =>
      cases j with
      | zero => rfl
      | succ j => exact ih i j v (fun hh => h (by rw [hh]))

theorem list_set_of_get? {α : Type} (l : List α) : ∀ (i : Nat) (v : α),
    l.get? i = some v → l.set i v = l := by
  induction l with
  | nil => intro i v h; cases h
  | cons a l ih =>
    intro i v h
    cases i with
    | zero =>
      obtain rfl : a = v := Option.some.inj h
      rfl
    | succ i =>
      show a :: l.set i v = a :: l
      rw [ih i v h]

theorem list_get?_lt_length {α : Type} (l : List α) : ∀ (i : Nat) (v : α),
    l.get? i = some v → i < l.length := by
  induction l with
  | nil => intro i v h; cases h
  | cons a l ih =>
    intro i v h
    cases i with
    | zero => exact Nat.succ_pos _
    | succ i => exact Nat.succ_lt_succ (ih i v h)

theorem packLoop_scratch_independent (transform : Matrix4) :
    ∀ (planes : List Plane) (i : Nat) (array : List (Option Cartesian4)) (sp sp2 : Plane),
      (packLoop transform sp planes i array).2 = (packLoop transform sp2 planes i array).2 := by
  intro planes
  cases planes with
  | nil => intro i array sp sp2; rfl
  | cons p rest => intro i array sp sp2; rfl

theorem packLoop_get?_lt (transform : Matrix4) :
    ∀ (planes : List Plane) (sp : Plane) (i : Nat) (array : List (Option Cartesian4)) (j : Nat),
      j < i → (packLoop transform sp planes i array).2.1.get? j = array.get? j := by
  intro planes
  induction planes with
  | nil => intro sp i array j _; rfl
  | cons p rest ih =>
    intro sp i array j h
    simp only [packLoop]
    split
    · rw [ih _ (i + 1) _ j (Nat.lt_succ_of_lt h)]
      exact list_get?_set_ne _ i j _ (Nat.ne_of_gt h)
    · rfl

theorem packLoop_rerun (transform : Matrix4) :
    ∀ (planes : List Plane) (i : Nat) (array : List (Option Cartesian4)) (sp sp2 : Plane),
      (packLoop transform sp2 planes i (packLoop transform sp planes i array).2.1).2 =
        (packLoop transform sp planes i array).2 := by
  intro planes
  induction planes with
  | nil => intro i array sp sp2; rfl
  | cons p rest ih =>
    intro i array sp sp2
    cases he : array.get? i with
    | none =>
      simp only [packLoop, he]
    | some e =>
      cases e with
      | none =>
        simp only [packLoop, he]
      | some packedPlane =>
        have hlen : i < array.length := list_get?_lt_length array i _ he
        simp only [packLoop, he]
        have hget :
            (packLoop transform (Plane.transform p transform) rest (i + 1)
                (array.set i (some ⟨(Plane.transform p transform).normal.x,
                  (Plane.transform p transform).normal.y,
                  (Plane.transform p transform).normal.z,
                  (Plane.transform p transform).distance⟩))).2.1.get? i =
              some (some ⟨(Plane.transform p transform).normal.x,
                (Plane.transform p transform).normal.y,
                (Plane.transform p transform).normal.z,
                (Plane.transform p transform).distance⟩) := by
          rw [packLoop_get?_lt transform rest _ (i + 1) _ i (Nat.lt_succ_self i)]
          exact list_get?_set_self array i _ hlen
        rw [hget]
        rw [list_set_of_get? _ i _ hget]
        exact ih (i + 1) _ _ _

/-- C7: `transformAndPackPlanes` is idempotent with respect to a reused
output container and leaks no scratch state between calls: for every
collection, view matrix and supplied container, the packed result (final
container state and completion flag) does not depend on the incoming scratch
state, and a second call on the container state produced by the first call
reproduces exactly that state and flag — no accumulation. -/
theorem transformAndPack_idempotent (c : ClippingPlanesCollection)
    (s1 s2 s3 : PackScratch) (viewMatrix : Matrix4)
    (array : List (Option Cartesian4)) :
    (c.transformAndPackPlanes s2 viewMatrix (some array)).2 =
      (c.transformAndPackPlanes s1 viewMatrix (some array)).2 ∧
    (c.transformAndPackPlanes s3 viewMatrix
        (some (c.transformAndPackPlanes s1 viewMatrix (some array)).2.1)).2 =
      (c.transformAndPackPlanes s1 viewMatrix (some array)).2 := by
  constructor
  · exact packLoop_scratch_independent _ c.planes 0 array _ _
  · exact packLoop_rerun _ c.planes 0 array _ _

theorem list_getD_eq_get? {α : Type} (l : List α) : ∀ (i : Nat) (d : α),
    l.getD i d = (l.get? i).getD d := by
  induction l with
  | nil => intro i d; cases i <;> rfl
  | cons a l ih =>
    intro i d
    cases i with
    | zero => rfl
    | succ i => exact ih i d

theorem list_get?_append_lt {α : Type} (l m : List α) : ∀ (i : Nat),
    i < l.length → (l ++ m).get? i = l.get? i := by
  induction l with
  | nil => intro i h; exact absurd h (Nat.not_lt_zero i)
  | cons a l ih =>
    intro i h
    cases i with
    | zero => rfl
    | succ i => exact ih i (Nat.lt_of_succ_lt_succ h)

theorem list_get?_append_self {α : Type} (l : List α) (x : α) (m : List α) :
    (l ++ x :: m).get? l.length = some x := by
  induction l with
  | nil => rfl
  | cons a l ih => exact ih

theorem list_getD_append_lt {α : Type} (l m : List α) (i : Nat) (d : α)
    (h : i < l.length) : (l ++ m).getD i d = l.getD i d := by
  rw [list_getD_eq_get?, list_getD_eq_get?, list_get?_append_lt l m i h]

theorem list_getD_append_self {α : Type} (l : List α) (x : α) (d : α) :
    (l ++ [x]).getD l.length d = x := by
  rw [list_getD_eq_get?, list_get?_append_self]
  rfl

theorem list_getD_set_self {α : Type} (l : List α) (i : Nat) (v d : α)
    (h : i < l.length) : (l.set i v).getD i d = v := by
  rw [list_getD_eq_get?, list_get?_set_self l i v h]
  rfl

theorem list_getD_set_ne {α : Type} (l : List α) (i j : Nat) (v d : α)
    (h : i ≠ j) : (l.set i v).getD j d = l.getD j d := by
  rw [list_getD_eq_get?, list_getD_eq_get?, list_get?_set_ne l i j v h]

theorem refSet_planes (c : RefClippingPlanesCollection) (v : Option Bool) :
    (c.setCombineClippingRegions v).planes = c.planes := by
  unfold RefClippingPlanesCollection.setCombineClippingRegions
  split <;> rfl

theorem refSet_enabled (c : RefClippingPlanesCollection) (v : Option Bool) :
    (c.setCombineClippingRegions v).enabled = c.enabled := by
  unfold RefClippingPlanesCollection.setCombineClippingRegions
  split <;> rfl

theorem refSet_modelMatrix (c : RefClippingPlanesCollection) (v : Option Bool) :
    (c.setCombineClippingRegions v).modelMatrix = c.modelMatrix := by
  unfold RefClippingPlanesCollection.setCombineClippingRegions
  split <;> rfl

theorem refSet_edgeColor (c : RefClippingPlanesCollection) (v : Option Bool) :
    (c.setCombineClippingRegions v).edgeColor = c.edgeColor := by
  unfold RefClippingPlanesCollection.setCombineClippingRegions
  split <;> rfl

theorem refSet_edgeWidth (c : RefClippingPlanesCollection) (v : Option Bool) :
    (c.setCombineClippingRegions v).edgeWidth = c.edgeWidth := by
  unfold RefClippingPlanesCollection.setCombineClippingRegions
  split <;> rfl

theorem refSet_wellformed (c : RefClippingPlanesCollection) (b bt : Bool)
    (h1 : c._combineClippingRegions = some bt)
    (h2 : c._testIntersection = some (getTestIntersectionFunction bt)) :
    (c.setCombineClippingRegions (some b))._combineClippingRegions = some b ∧
    (c.setCombineClippingRegions (some b))._testIntersection =
      some (getTestIntersectionFunction b) := by
  by_cases h : bt = b
  · subst h
    simp [RefClippingPlanesCollection.setCombineClippingRegions, h1, h2]
  · simp [RefClippingPlanesCollection.setCombineClippingRegions, h1, h2, h, truthy]

/-- C5 counterexample: the constructor does not deep-copy its inputs. After
constructing from the provided array object 0 and matrix object 0, emptying
the passed-in array changes the set's observed planes, and writing the
passed-in matrix changes the set's observed model matrix — the claim says
both stay unchanged. -/
theorem constructor_inputs_not_copied :
    observePlanes (Store.setArray (refConstruct cexStore (some cexOptions)).1 0 [])
        (refConstruct cexStore (some cexOptions)).2 ≠
      observePlanes (refConstruct cexStore (some cexOptions)).1
        (refConstruct cexStore (some cexOptions)).2 ∧
    observeModelMatrix (Store.setMatrix (refConstruct cexStore (some cexOptions)).1 0 cexMatrix)
        (refConstruct cexStore (some cexOptions)).2 ≠
      observeModelMatrix (refConstruct cexStore (some cexOptions)).1
        (refConstruct cexStore (some cexOptions)).2 := by
  constructor <;> decide

/-- C5 amended: the constructor aliases its provided inputs rather than
deep-copying them: the constructed set stores the very references passed as
`options.planes` and `options.modelMatrix` (fresh objects are allocated only
for defaulted options), so a later external mutation of the passed-in plane
array is observed by the set verbatim. -/
theorem constructor_aliases_provided_inputs (store : Store) (options : RefOptions)
    (r m : Nat) (hp : options.planes = some r) (hm : options.modelMatrix = some m)
    (hr : r < store.arrays.length) :
    (refConstruct store (some options)).2.planes = r ∧
    (refConstruct store (some options)).2.modelMatrix = m ∧
    ∀ contents : List Nat,
      observePlanes (Store.setArray (refConstruct store (some options)).1 r contents)
          (refConstruct store (some options)).2 =
        contents.map (Store.setArray (refConstruct store (some options)).1 r contents).lookupPlane := by
  have hplanes : (refConstruct store (some options)).2.planes = r := by
    simp [refConstruct, defaultValue, hp, refSet_planes]
  have harrays : (refConstruct store (some options)).1.arrays = store.arrays ++ [[]] := by
    simp [refConstruct, Store.allocArray, Store.allocMatrix, Store.allocColor, defaultValue]
  refine ⟨hplanes, ?_, ?_⟩
  · simp [refConstruct, defaultValue, hm, refSet_modelMatrix]
  · intro contents
    unfold observePlanes Store.lookupArray Store.setArray
    rw [hplanes]
    simp only
    rw [harrays]
    rw [list_getD_set_self]
    simp [List.length_append]
    omega

/-- Witness for C5 amended: applied to the concrete heap, with the empty
list written into the passed-in array object. -/
theorem constructor_aliases_provided_inputs_witness :
    cexOptions.planes = some 0 ∧ cexOptions.modelMatrix = some 0 ∧
    0 < cexStore.arrays.length ∧
    (refConstruct cexStore (some cexOptions)).2.planes = 0 ∧
    observePlanes (Store.setArray (refConstruct cexStore (some cexOptions)).1 0 [])
        (refConstruct cexStore (some cexOptions)).2 =
      List.map (Store.setArray (refConstruct cexStore (some cexOptions)).1 0 []).lookupPlane [] :=
  ⟨rfl, rfl, by decide,
   (constructor_aliases_provided_inputs cexStore cexOptions 0 0 rfl rfl (by decide)).1,
   (constructor_aliases_provided_inputs cexStore cexOptions 0 0 rfl rfl (by decide)).2.2 []⟩

theorem refClone_none_planes (store : Store) (c : RefClippingPlanesCollection) :
    (refClone store c none).2.planes = (store.arrays ++ [[]]).length := by
  simp [refClone, refConstruct, defaultValue, Store.allocArray, Store.allocMatrix,
    Store.allocColor, Store.setMatrix, Store.setColor, refSet_planes]

theorem refClone_none_arrays (store : Store) (c : RefClippingPlanesCollection) :
    (refClone store c none).1.arrays =
      (store.arrays ++ [[]]) ++ [(store.arrays ++ [[]]).getD c.planes []] := by
  simp [refClone, refConstruct, defaultValue, Store.allocArray, Store.allocMatrix,
    Store.allocColor, Store.setMatrix, Store.setColor, Store.lookupArray]

/-- C10: after `clone` with no target, the clone's planes array is a fresh
array object, distinct from the original's array object, but it holds the
very same plane references: dereferenced in the post-clone store, the two
arrays are one and the same list of plane-object references, so mutating any
plane object (writing its normal or distance) is observed identically
through the clone and through the original. -/
theorem clone_shares_plane_objects (store : Store) (c : RefClippingPlanesCollection)
    (h : c.planes < store.arrays.length) :
    (refClone store c none).2.planes ≠ c.planes ∧
    Store.lookupArray (refClone store c none).1 (refClone store c none).2.planes =
      Store.lookupArray (refClone store c none).1 c.planes ∧
    ∀ (p : Nat) (q : Plane),
      observePlanes (Store.setPlane (refClone store c none).1 p q) (refClone store c none).2 =
        observePlanes (Store.setPlane (refClone store c none).1 p q) c := by
  have hlen : c.planes < (store.arrays ++ [[]]).length := by
    simp [List.length_append]
    omega
  have hlists : Store.lookupArray (refClone store c none).1 (refClone store c none).2.planes =
      Store.lookupArray (refClone store c none).1 c.planes := by
    unfold Store.lookupArray
    rw [refClone_none_arrays, refClone_none_planes]
    rw [list_getD_append_self]
    rw [list_getD_append_lt _ _ _ _ hlen]
  refine ⟨?_, hlists, ?_⟩
  · rw [refClone_none_planes]
    simp [List.length_append]
    omega
  · intro p q
    unfold observePlanes
    have harr : ∀ x, Store.lookupArray (Store.setPlane (refClone store c none).1 p q) x =
        Store.lookupArray (refClone store c none).1 x := fun x => rfl
    simp only [harr]
    rw [hlists]

/-- Witness for C10: applied to the concrete heap and collection, with plane
object 0 rewritten to the upper slab plane. -/
theorem clone_shares_plane_objects_witness :
    cexCollection.planes < cexStore.arrays.length ∧
    (refClone cexStore cexCollection none).2.planes ≠ cexCollection.planes ∧
    observePlanes (Store.setPlane (refClone cexStore cexCollection none).1 0 slabPlaneUpper)
        (refClone cexStore cexCollection none).2 =
      observePlanes (Store.setPlane (refClone cexStore cexCollection none).1 0 slabPlaneUpper)
        cexCollection :=
  ⟨by decide,
   (clone_shares_plane_objects cexStore cexCollection (by decide)).1,
   (clone_shares_plane_objects cexStore cexCollection (by decide)).2.2 0 slabPlaneUpper⟩

theorem refConstruct_none_store (store : Store) :
    (refConstruct store none).1 =
      ⟨store.planeObjects, store.arrays ++ [[]],
       store.matrices ++ [Matrix4.IDENTITY], store.colors ++ [Color.WHITE]⟩ := rfl

theorem refConstruct_none_coll (store : Store) :
    (refConstruct store none).2 =
      ⟨store.arrays.length, true, store.matrices.length, store.colors.length, 0,
       some true, some (getTestIntersectionFunction true)⟩ := rfl

theorem lookupPlane_congr (s s2 : Store) (h : s.planeObjects = s2.planeObjects) :
    Store.lookupPlane s = Store.lookupPlane s2 := by
  funext r
  unfold Store.lookupPlane
  rw [h]

theorem refClone_some_parts (store : Store) (c t : RefClippingPlanesCollection) :
    (refClone store c (some t)).1.planeObjects = store.planeObjects ∧
    (refClone store c (some t)).1.arrays = store.arrays ++ [store.arrays.getD c.planes []] ∧
    (refClone store c (some t)).1.matrices =
      store.matrices.set t.modelMatrix (store.matrices.getD c.modelMatrix Matrix4.IDENTITY) ∧
    (refClone store c (some t)).1.colors =
      store.colors.set t.edgeColor (store.colors.getD c.edgeColor Color.WHITE) ∧
    (refClone store c (some t)).2.planes = store.arrays.length ∧
    (refClone store c (some t)).2.enabled = c.enabled ∧
    (refClone store c (some t)).2.modelMatrix = t.modelMatrix ∧
    (refClone store c (some t)).2.edgeColor = t.edgeColor ∧
    (refClone store c (some t)).2.edgeWidth = c.edgeWidth := by
  refine ⟨?_, ?_, ?_, ?_, ?_, ?_, ?_, ?_, ?_⟩ <;>
    simp [refClone, Store.allocArray, Store.setMatrix, Store.setColor, Store.lookupArray,
      Store.lookupMatrix, Store.lookupColor, refSet_planes, refSet_enabled, refSet_modelMatrix,
      refSet_edgeColor, refSet_edgeWidth]

theorem refClone_some_combine (store : Store) (c t : RefClippingPlanesCollection) (b bt : Bool)
    (hb1 : c._combineClippingRegions = some b)
    (ht1 : t._combineClippingRegions = some bt)
    (ht2 : t._testIntersection = some (getTestIntersectionFunction bt)) :
    (refClone store c (some t)).2._combineClippingRegions = some b ∧
    (refClone store c (some t)).2._testIntersection =
      some (getTestIntersectionFunction b) := by
  simp only [refClone, hb1]
  exact refSet_wellformed _ b bt ht1 ht2

theorem refClone_into_target (store : Store) (c t : RefClippingPlanesCollection) (b bt : Bool)
    (hcp : c.planes < store.arrays.length)
    (hb1 : c._combineClippingRegions = some b)
    (htm : t.modelMatrix < store.matrices.length)
    (htmne : t.modelMatrix ≠ c.modelMatrix)
    (htc : t.edgeColor < store.colors.length)
    (ht1 : t._combineClippingRegions = some bt)
    (ht2 : t._testIntersection = some (getTestIntersectionFunction bt)) :
    observePlanes (refClone store c (some t)).1 (refClone store c (some t)).2 =
      observePlanes store c ∧
    (refClone store c (some t)).2.enabled = c.enabled ∧
    observeModelMatrix (refClone store c (some t)).1 (refClone store c (some t)).2 =
      observeModelMatrix store c ∧
    ((refClone store c (some t)).2._combineClippingRegions = some b ∧
      (refClone store c (some t)).2._testIntersection =
        some (getTestIntersectionFunction b)) ∧
    observeEdgeColor (refClone store c (some t)).1 (refClone store c (some t)).2 =
      observeEdgeColor store c ∧
    (refClone store c (some t)).2.edgeWidth = c.edgeWidth ∧
    (refClone store c (some t)).2.planes ≠ c.planes ∧
    (∀ contents : List Nat,
      observePlanes (Store.setArray (refClone store c (some t)).1
          (refClone store c (some t)).2.planes contents) c =
        observePlanes (refClone store c (some t)).1 c) ∧
    (∀ contents : List Nat,
      observePlanes (Store.setArray (refClone store c (some t)).1 c.planes contents)
          (refClone store c (some t)).2 =
        observePlanes (refClone store c (some t)).1 (refClone store c (some t)).2) ∧
    (refClone store c (some t)).2.modelMatrix ≠ c.modelMatrix ∧
    (∀ M : Matrix4,
      observeModelMatrix (Store.setMatrix (refClone store c (some t)).1
          (refClone store c (some t)).2.modelMatrix M) c =
        observeModelMatrix (refClone store c (some t)).1 c) ∧
    (∀ M : Matrix4,
      observeModelMatrix (Store.setMatrix (refClone store c (some t)).1 c.modelMatrix M)
          (refClone store c (some t)).2 =
        observeModelMatrix (refClone store c (some t)).1 (refClone store c (some t)).2) ∧
    (refClone store c (some t)).2.modelMatrix = t.modelMatrix ∧
    (refClone store c (some t)).2.edgeColor = t.edgeColor := by
  obtain ⟨hPO, hA, hM, hC, hp, hen, hmm, hec, hew⟩ := refClone_some_parts store c t
  have hcombine := refClone_some_combine store c t b bt hb1 ht1 ht2
  refine ⟨?_, hen, ?_, hcombine, ?_, hew, ?_, ?_, ?_, ?_, ?_, ?_, hmm, hec⟩
  · unfold observePlanes Store.lookupArray
    rw [lookupPlane_congr _ store hPO, hA, hp, list_getD_append_self]
  · unfold observeModelMatrix Store.lookupMatrix
    rw [hM, hmm, list_getD_set_self _ _ _ _ htm]
  · unfold observeEdgeColor Store.lookupColor
    rw [hC, hec, list_getD_set_self _ _ _ _ htc]
  · rw [hp]
    omega
  · intro contents
    unfold observePlanes Store.lookupArray Store.setArray
    simp only
    rw [hp, list_getD_set_ne _ _ _ _ _ (by omega : store.arrays.length ≠ c.planes)]
    exact rfl
  · intro contents
    unfold observePlanes Store.lookupArray Store.setArray
    simp only
    rw [hp, list_getD_set_ne _ _ _ _ _ (by omega : c.planes ≠ store.arrays.length)]
    exact rfl
  · rw [hmm]
    exact htmne
  · intro M
    unfold observeModelMatrix Store.lookupMatrix Store.setMatrix
    simp only
    rw [hmm, list_getD_set_ne _ _ _ _ _ htmne]
  · intro M
    unfold observeModelMatrix Store.lookupMatrix Store.setMatrix
    simp only
    rw [hmm, list_getD_set_ne _ _ _ _ _ (Ne.symm htmne)]

theorem observePlanes_refConstruct_none (store : Store) (c : RefClippingPlanesCollection)
    (h : c.planes < store.arrays.length) :
    observePlanes (refConstruct store none).1 c = observePlanes store c := by
  unfold observePlanes Store.lookupArray
  rw [lookupPlane_congr (refConstruct store none).1 store rfl, refConstruct_none_store]
  simp only
  rw [list_getD_append_lt _ _ _ _ h]

theorem observeModelMatrix_refConstruct_none (store : Store) (c : RefClippingPlanesCollection)
    (h : c.modelMatrix < store.matrices.length) :
    observeModelMatrix (refConstruct store none).1 c = observeModelMatrix store c := by
  unfold observeModelMatrix Store.lookupMatrix
  rw [refConstruct_none_store]
  simp only
  rw [list_getD_append_lt _ _ _ _ h]

theorem observeEdgeColor_refConstruct_none (store : Store) (c : RefClippingPlanesCollection)
    (h : c.edgeColor < store.colors.length) :
    observeEdgeColor (refConstruct store none).1 c = observeEdgeColor store c := by
  unfold observeEdgeColor Store.lookupColor
  rw [refConstruct_none_store]
  simp only
  rw [list_getD_append_lt _ _ _ _ h]

/-- C8 counterexample: clone into a supplied target whose `modelMatrix` is
the original's own matrix object (`new ClippingPlanesCollection({modelMatrix:
orig.modelMatrix})`). The clone's matrix reference equals the original's, so
writing the clone's model matrix changes the original's observed model matrix
— the claim's storage independence fails for such a target, because clone
writes through the target's existing matrix object instead of allocating. -/
theorem clone_target_sharing_matrix_not_independent :
    c8Clone.2.modelMatrix = c8Orig.2.modelMatrix ∧
    observeModelMatrix c8Clone.1 c8Orig.2 = Matrix4.IDENTITY ∧
    observeModelMatrix (Store.setMatrix c8Clone.1 c8Clone.2.modelMatrix cexMatrix) c8Orig.2 =
      cexMatrix ∧
    cexMatrix ≠ Matrix4.IDENTITY := by
  refine ⟨by decide, by decide, by decide, by decide⟩

/-- C8 amended: `clone` produces a collection whose observed planes,
`enabled`, observed model matrix, `combineClippingRegions` (applied through
the property setter, so flag and cached predicate stay consistent), observed
edge color and `edgeWidth` equal the original's. The cloned planes array is
always freshly allocated, so structural mutation of either collection's
planes array is invisible to the other; the model matrix is independently
stored provided a supplied target does not already share the original's
matrix object (clone writes through the target's existing matrix and color
objects rather than allocating; with no target a fresh instance is
allocated); a supplied target's matrix and color objects are the ones
mutated and returned. -/
theorem clone_copies_fields_with_fresh_array (store : Store)
    (c : RefClippingPlanesCollection) (result : Option RefClippingPlanesCollection) (b : Bool)
    (hcp : c.planes < store.arrays.length)
    (hcm : c.modelMatrix < store.matrices.length)
    (hcc : c.edgeColor < store.colors.length)
    (hb1 : c._combineClippingRegions = some b)
    (hb2 : c._testIntersection = some (getTestIntersectionFunction b))
    (htarget : ∀ t, result = some t →
      t.modelMatrix < store.matrices.length ∧ t.modelMatrix ≠ c.modelMatrix ∧
      t.edgeColor < store.colors.length ∧
      ∃ bt : Bool, t._combineClippingRegions = some bt ∧
        t._testIntersection = some (getTestIntersectionFunction bt)) :
    observePlanes (refClone store c result).1 (refClone store c result).2 =
      observePlanes store c ∧
    (refClone store c result).2.enabled = c.enabled ∧
    observeModelMatrix (refClone store c result).1 (refClone store c result).2 =
      observeModelMatrix store c ∧
    ((refClone store c result).2._combineClippingRegions = some b ∧
      (refClone store c result).2._testIntersection =
        some (getTestIntersectionFunction b)) ∧
    observeEdgeColor (refClone store c result).1 (refClone store c result).2 =
      observeEdgeColor store c ∧
    (refClone store c result).2.edgeWidth = c.edgeWidth ∧
    (refClone store c result).2.planes ≠ c.planes ∧
    (∀ contents : List Nat,
      observePlanes (Store.setArray (refClone store c result).1
          (refClone store c result).2.planes contents) c =
        observePlanes (refClone store c result).1 c) ∧
    (∀ contents : List Nat,
      observePlanes (Store.setArray (refClone store c result).1 c.planes contents)
          (refClone store c result).2 =
        observePlanes (refClone store c result).1 (refClone store c result).2) ∧
    (refClone store c result).2.modelMatrix ≠ c.modelMatrix ∧
    (∀ M : Matrix4,
      observeModelMatrix (Store.setMatrix (refClone store c result).1
          (refClone store c result).2.modelMatrix M) c =
        observeModelMatrix (refClone store c result).1 c) ∧
    (∀ M : Matrix4,
      observeModelMatrix (Store.setMatrix (refClone store c result).1 c.modelMatrix M)
          (refClone store c result).2 =
        observeModelMatrix (refClone store c result).1 (refClone store c result).2) ∧
    (∀ t, result = some t →
      (refClone store c result).2.modelMatrix = t.modelMatrix ∧
      (refClone store c result).2.edgeColor = t.edgeColor) := by
  cases result with
  | some t =>
    obtain ⟨h1, h2, h3, bt, h4, h5⟩ := htarget t rfl
    obtain ⟨H1, H2, H3, H4, H5, H6, H7, H8, H9, H10, H11, H12, H13, H14⟩ :=
      refClone_into_target store c t b bt hcp hb1 h1 h2 h3 h4 h5
    refine ⟨H1, H2, H3, H4, H5, H6, H7, H8, H9, H10, H11, H12, ?_⟩
    intro t2 ht2
    obtain rfl : t = t2 := Option.some.inj ht2
    exact ⟨H13, H14⟩
  | none =>
    have hcp2 : c.planes < (refConstruct store none).1.arrays.length := by
      rw [refConstruct_none_store]
      simp [List.length_append]
      omega
    have htm2 : (refConstruct store none).2.modelMatrix < (refConstruct store none).1.matrices.length := by
      rw [refConstruct_none_store, refConstruct_none_coll]
      simp [List.length_append]
    have htmne2 : (refConstruct store none).2.modelMatrix ≠ c.modelMatrix := by
      rw [refConstruct_none_coll]
      simp only
      omega
    have htc2 : (refConstruct store none).2.edgeColor < (refConstruct store none).1.colors.length := by
      rw [refConstruct_none_store, refConstruct_none_coll]
      simp [List.length_append]
    obtain ⟨H1, H2, H3, H4, H5, H6, H7, H8, H9, H10, H11, H12, H13, H14⟩ :=
      refClone_into_target (refConstruct store none).1 c (refConstruct store none).2 b true
        hcp2 hb1 htm2 htmne2 htc2 rfl rfl
    exact ⟨H1.trans (observePlanes_refConstruct_none store c hcp),
      H2,
      H3.trans (observeModelMatrix_refConstruct_none store c hcm),
      H4,
      H5.trans (observeEdgeColor_refConstruct_none store c hcc),
      H6, H7, H8, H9, H10, H11, H12,
      fun t2 ht2 => Option.noConfusion ht2⟩

/-- Witness for C8 amended: applied to the concrete heap and collection with
no target supplied. -/
theorem clone_copies_fields_with_fresh_array_witness :
    cexCollection._combineClippingRegions = some true ∧
    (refClone cexStore cexCollection none).2.enabled = cexCollection.enabled ∧
    observeModelMatrix (refClone cexStore cexCollection none).1
        (refClone cexStore cexCollection none).2 =
      observeModelMatrix cexStore cexCollection :=
  ⟨rfl,
   (clone_copies_fields_with_fresh_array cexStore cexCollection none true (by decide)
      (by decide) (by decide) rfl rfl (fun t ht => Option.noConfusion ht)).2.1,
   (clone_copies_fields_with_fresh_array cexStore cexCollection none true (by decide)
      (by decide) (by decide) rfl rfl (fun t ht => Option.noConfusion ht)).2.2.1⟩

end Cesium
